import Mathlib

/-!
Verification of the agora event-coordination backend.

The backend is a set of Express route handlers performing parameterized
queries against a relational store (`src/backend/src/routes/{rsvp,
subscriptions,events}.ts`).  We embed each handler as a pure Lean function
from the request and the relevant store tables (lists of rows) to a
response together with the updated tables.  The query operations of the store
(`eq` filters, `single()`, `insert`, `update`, `delete`, `order`) are
modelled by list operations with value equality; `single()` succeeds
exactly when precisely one row matches, as in PostgREST.

Timestamps are integers (milliseconds since the Unix epoch, UTC); a
calendar day is the Euclidean quotient by `msPerDay`, so day 0 is
1970-01-01 (a Thursday, JS `getDay()` = 4).  ISO date strings are
identified with their day numbers.
-/

/-- Milliseconds per calendar day. -/
def msPerDay : Int := 86400000

/-- The calendar day (days since 1970-01-01 UTC) containing a timestamp:
the model of the date part of `toISOString()` and of `toDateString()`
day-equality, with the server clock taken as UTC. -/
def jsDay (t : Int) : Int := t / msPerDay

/-- JS `Date.prototype.getDay()` : 0 = Sunday, 1 = Monday, …, 6 = Saturday.
Day 0 (1970-01-01) is a Thursday, value 4. -/
def jsGetDay (t : Int) : Int := (jsDay t + 4) % 7

/-- JS falsiness of an optional string request field: absent (`undefined` /
`null`) or the empty string. -/
def falsy : Option String → Bool
  | none => true
  | some s => s = ""

/-- Supabase `.single()`: returns the row when exactly one row matches the
query, and an error (modelled as `none`) when zero or several match. -/
def selectSingle (p : α → Bool) (l : List α) : Option α :=
  match l.filter p with
  | [a] => some a
  | _ => none

/-- Lexicographic order on char lists by code point, the model of the
text ordering of the store used when ordering by company name. -/
def strLe (a b : List Char) : Bool :=
  match a, b with
  | [], _ => true
  | _ :: _, [] => false
  | c :: a, d :: b => if c = d then strLe a b else decide (c.toNat < d.toNat)

/-! ## Store rows -/

/-- A row of the `rsvps` table (the columns the handlers read). -/
structure RSVPRow where
  userID : String
  eventID : String
  status : String
deriving DecidableEq, Repr

/-- A row of the `events` table (the columns the handlers read). -/
structure EventRow where
  eventID : String
  eventName : String
  tickerSymbol : Option String
  gicsSector : Option String
  eventType : String
  startDate : Int
  endDate : Option Int
deriving DecidableEq, Repr

/-- A row of the `subscriptions` table (the columns the handlers read). -/
structure SubRow where
  subID : String
  userID : String
  gicsSector : String
  gicsSubCategory : Option String
  subStart : Int
  subEnd : Option Int
  status : String
deriving DecidableEq, Repr

/-- A row of the `gics_companies` reference catalog. -/
structure CompanyRow where
  tickerSymbol : String
  companyName : String
  gicsSector : String
  gicsSubCategory : String
deriving DecidableEq, Repr

/-- The four valid RSVP statuses (`rsvp.ts` line 18). -/
def validStatuses : List String := ["ACCEPTED", "DECLINED", "TENTATIVE", "PENDING"]

/-! ## POST /api/rsvp — create or update an RSVP (`rsvp.ts` 8-104) -/

/-- Body of a POST /api/rsvp request; `none` models an absent field. -/
structure RSVPBody where
  eventID : Option String
  status : Option String
deriving DecidableEq, Repr

/-- Outcome of the RSVP upsert: 400, 404, or 200 with the response
`message` string. -/
inductive UpsertResult where
  | invalidArgument (error : String)
  | notFound
  | ok (message : String)
deriving DecidableEq, Repr

/-- POST /api/rsvp.  Validates presence of `eventID` and `status`
(JS falsiness), validates `status` against the four values, requires the
event to exist (`.single()` on `events`), then looks up the existing RSVP
for (userID, eventID) with `.single()`: on a hit it updates the matching
status of the matching rows in place, otherwise it inserts a new row.  Returns the
response and the updated `rsvps` table. -/
def postRsvp (userID : String) (body : RSVPBody) (events : List EventRow)
    (rsvps : List RSVPRow) : UpsertResult × List RSVPRow :=
  if falsy body.eventID || falsy body.status then
    (.invalidArgument "Event ID and status are required", rsvps)
  else
    let eventID := body.eventID.getD ""
    let status := body.status.getD ""
    if !(validStatuses.contains status) then
      (.invalidArgument "Invalid RSVP status", rsvps)
    else
      match selectSingle (fun e => e.eventID == eventID) events with
      | none => (.notFound, rsvps)
      | some _ =>
        match selectSingle (fun r => r.userID == userID && r.eventID == eventID) rsvps with
        | some _ =>
          (.ok "RSVP updated successfully",
            rsvps.map (fun r =>
              if r.userID == userID && r.eventID == eventID then
                { r with status := status } else r))
        | none =>
          (.ok "RSVP created successfully",
            rsvps ++ [{ userID := userID, eventID := eventID, status := status }])

/-! ## DELETE /api/rsvp/:eventID (`rsvp.ts` 199-231) -/

/-- Outcome of the RSVP delete. -/
inductive DeleteResult where
  | notFound
  | ok
deriving DecidableEq, Repr

/-- DELETE /api/rsvp/:eventID.  Looks up the RSVP of the caller with
`.single()`; 404 when that fails, otherwise deletes every row matching
(userID, eventID). -/
def deleteRsvp (userID eventID : String) (rsvps : List RSVPRow) :
    DeleteResult × List RSVPRow :=
  match selectSingle (fun r => r.userID == userID && r.eventID == eventID) rsvps with
  | none => (.notFound, rsvps)
  | some _ =>
    (.ok, rsvps.filter (fun r => !(r.userID == userID && r.eventID == eventID)))

/-! ## GET /api/rsvp/event/:eventID (`rsvp.ts` 143-196) -/

/-- The `statistics` object of the event-RSVP listing. -/
structure RsvpStatistics where
  total : Nat
  accepted : Nat
  declined : Nat
  tentative : Nat
  pending : Nat
deriving DecidableEq, Repr

/-- Response of GET /api/rsvp/event/:eventID: the matching rows, the
status buckets (`rsvpsByStatus`, a status-keyed grouping modelled as a
function), and the statistics. -/
structure EventRsvpsResponse where
  rsvps : List RSVPRow
  rsvpsByStatus : String → List RSVPRow
  statistics : RsvpStatistics

/-- GET /api/rsvp/event/:eventID.  Filters the `rsvps` table by event
(and the optional `status` query parameter), groups the result by status
— the JS `reduce` appends each row to the bucket keyed by its own status,
in list order, which is exactly a filter by that status — and computes
the statistics from the bucket sizes. -/
def getEventRsvps (eventID : String) (statusFilter : Option String)
    (rsvps : List RSVPRow) : EventRsvpsResponse :=
  let rows := rsvps.filter (fun r =>
    r.eventID == eventID &&
      (match statusFilter with
       | some s => r.status == s
       | none => true))
  let byStatus : String → List RSVPRow := fun s => rows.filter (fun r => r.status == s)
  { rsvps := rows
    rsvpsByStatus := byStatus
    statistics :=
      { total := rows.length
        accepted := (byStatus "ACCEPTED").length
        declined := (byStatus "DECLINED").length
        tentative := (byStatus "TENTATIVE").length
        pending := (byStatus "PENDING").length } }

/-! ## POST /api/subscriptions (`subscriptions.ts` 41-98) -/

/-- Body of a POST /api/subscriptions request. -/
structure SubCreateBody where
  gicsSector : Option String
  gicsSubCategory : Option String
  subEnd : Option Int
deriving DecidableEq, Repr

/-- Outcome of the subscription create: 400, 409, or 201. -/
inductive CreateSubResult where
  | invalidArgument
  | conflict
  | created
deriving DecidableEq, Repr

/-- The JS coercion `gicsSubCategory || null`: an absent or empty-string
sub-category becomes null. -/
def normSubCat : Option String → Option String
  | none => none
  | some s => if s = "" then none else some s

/-- POST /api/subscriptions.  Requires `gicsSector` (JS falsiness), then
checks for an existing `ACTIVE` subscription with the exact
(userID, gicsSector, gicsSubCategory) tuple — the sub-category compared
after the `|| null` coercion — and fails with Conflict on a hit;
otherwise inserts a new `ACTIVE` row with `subStart = now` and the given
`subEnd`.  `now` is the server clock and `newID` the store-generated key. -/
def postSubscription (userID : String) (body : SubCreateBody) (now : Int)
    (newID : String) (subs : List SubRow) : CreateSubResult × List SubRow :=
  if falsy body.gicsSector then
    (.invalidArgument, subs)
  else
    let sector := body.gicsSector.getD ""
    let subCat := normSubCat body.gicsSubCategory
    let existing := (subs.filter (fun r =>
      r.userID == userID && r.gicsSector == sector &&
        r.gicsSubCategory == subCat && r.status == "ACTIVE")).take 1
    if existing.length > 0 then
      (.conflict, subs)
    else
      let row : SubRow :=
        { subID := newID, userID := userID, gicsSector := sector,
          gicsSubCategory := subCat, subStart := now, subEnd := body.subEnd,
          status := "ACTIVE" }
      (.created, subs ++ [row])

/-! ## PUT /api/subscriptions/:id (`subscriptions.ts` 101-158) -/

/-- Body of a PUT /api/subscriptions/:id request; each field is optional
(`none` models an absent JS field, i.e. `undefined`). -/
structure SubUpdateBody where
  gicsSector : Option String
  gicsSubCategory : Option (Option String)
  subEnd : Option (Option Int)
  status : Option String
deriving DecidableEq, Repr

/-- Outcome of the subscription update. -/
inductive UpdateSubResult where
  | notFound
  | forbidden
  | invalidArgument
  | ok
deriving DecidableEq, Repr

/-- The valid subscription statuses (`subscriptions.ts` line 123). -/
def validSubStatuses : List String := ["ACTIVE", "INACTIVE", "EXPIRED"]

/-- Applies the present fields of the PUT body to a stored subscription row
(the `updateData` object). -/
def applySubUpdate (body : SubUpdateBody) (r : SubRow) : SubRow :=
  { r with
    gicsSector := body.gicsSector.getD r.gicsSector
    gicsSubCategory := body.gicsSubCategory.getD r.gicsSubCategory
    subEnd := body.subEnd.getD r.subEnd
    status := body.status.getD r.status }

/-- PUT /api/subscriptions/:id.  Looks the row up by `subID` with
`.single()` (404 on a miss), rejects a caller who is not the stored
owner with 403 before touching the store, validates the optional
`status`, then updates every row with that `subID`. -/
def putSubscription (userID : String) (id : String) (body : SubUpdateBody)
    (subs : List SubRow) : UpdateSubResult × List SubRow :=
  match selectSingle (fun r => r.subID == id) subs with
  | none => (.notFound, subs)
  | some existing =>
    if existing.userID != userID then
      (.forbidden, subs)
    else if (match body.status with
             | some s => !(validSubStatuses.contains s)
             | none => false) then
      (.invalidArgument, subs)
    else
      (.ok, subs.map (fun r => if r.subID == id then applySubUpdate body r else r))

/-! ## POST /api/events (`events.ts` 117-187) -/

/-- The seven valid event types (`events.ts` line 139). -/
def validEventTypes : List String :=
  ["EARNINGS_CALL", "INVESTOR_MEETING", "CONFERENCE", "ROADSHOW",
   "ANALYST_DAY", "PRODUCT_LAUNCH", "OTHER"]

/-- Body of a POST /api/events request (the fields the validation logic
reads; timestamps already parsed, `none` modelling an absent or falsy
field). -/
structure EventCreateBody where
  eventName : Option String
  tickerSymbol : Option String
  gicsSector : Option String
  eventType : Option String
  startDate : Option Int
  endDate : Option Int
deriving DecidableEq, Repr

/-- Outcome of the event create: 403 from the role middleware, 400, or
201. -/
inductive CreateEventResult where
  | forbidden
  | invalidArgument (error : String)
  | created
deriving DecidableEq, Repr

/-- POST /api/events.  Gated on the `IR_ADMIN` role by `requireRole`;
requires `eventName`, `eventType` and `startDate`; validates the event
type; rejects an `endDate` that is not strictly after `startDate`
(`end <= start` in JS Date order) with 400 before inserting; otherwise
inserts the new event.  Returns the response and the updated table. -/
def postEvent (role : String) (body : EventCreateBody) (newID : String)
    (events : List EventRow) : CreateEventResult × List EventRow :=
  if role != "IR_ADMIN" then
    (.forbidden, events)
  else if falsy body.eventName || falsy body.eventType || body.startDate == none then
    (.invalidArgument "Event name, type, and start date are required", events)
  else
    let eventType := body.eventType.getD ""
    if !(validEventTypes.contains eventType) then
      (.invalidArgument "Invalid event type", events)
    else
      let start := body.startDate.getD 0
      let row : EventRow :=
        { eventID := newID, eventName := body.eventName.getD "",
          tickerSymbol := body.tickerSymbol, gicsSector := body.gicsSector,
          eventType := eventType, startDate := start, endDate := body.endDate }
      match body.endDate with
      | some e =>
        if e ≤ start then
          (.invalidArgument "End date must be after start date", events)
        else
          (.created, events ++ [row])
      | none =>
        (.created, events ++ [row])

/-! ## GET /api/calendar (`routes/calendar.ts`, month grid handler) -/

/-- The joined `gicsCompany` of an event (foreign key on
`tickerSymbol`). -/
def gicsCompanyOf (catalog : List CompanyRow) (e : EventRow) : Option CompanyRow :=
  match e.tickerSymbol with
  | none => none
  | some t => catalog.find? (fun c => c.tickerSymbol == t)

/-- The nested `rsvps` of an event in the select of the store. -/
def eventRsvps (rsvps : List RSVPRow) (e : EventRow) : List RSVPRow :=
  rsvps.filter (fun r => r.eventID == e.eventID)

/-- The optional filters of the calendar event query
(sector / event type / comma-separated followed tickers). -/
structure CalendarFilters where
  gicsSector : Option String
  eventType : Option String
  followedCompanies : Option String
deriving DecidableEq, Repr

/-- The in-range event query of GET /api/calendar: start date within
`[start, end]`, the optional `eq` filters, the `in` filter on the split
`followedCompanies` list, ordered by start date. -/
def calendarEvents (start endTs : Int) (filters : CalendarFilters)
    (events : List EventRow) : List EventRow :=
  (events.filter (fun e =>
    decide (start ≤ e.startDate) && decide (e.startDate ≤ endTs) &&
      (match filters.gicsSector with
       | some s => e.gicsSector == some s
       | none => true) &&
      (match filters.eventType with
       | some t => e.eventType == t
       | none => true) &&
      (match filters.followedCompanies with
       | some fc =>
         (match e.tickerSymbol with
          | some t => (fc.splitOn ",").contains t
          | none => false)
       | none => true))).mergeSort (fun a b => a.startDate ≤ b.startDate)

/-- The `company` projection placed in each calendar row. -/
structure CompanyInfo where
  tickerSymbol : String
  companyName : String
  gicsSector : String
  gicsSubCategory : String
deriving DecidableEq, Repr

/-- One row of `calendarData`: a company and its events keyed by day,
each event carrying the own RSVP of the requesting user as the `userRsvp`
overlay. -/
structure CalendarRow where
  company : CompanyInfo
  eventsByDate : Int → List (EventRow × Option RSVPRow)

/-- Builds one calendar row: the matching in-range events of the company
— those whose own ticker or joined company ticker equals its ticker —
grouped by the day of their start date, with the `userRsvp` overlay. -/
def calendarRowFor (uid : String) (catalog : List CompanyRow)
    (rsvps : List RSVPRow) (evs : List EventRow) (company : CompanyRow) :
    CalendarRow :=
  let companyEvents := evs.filter (fun e =>
    e.tickerSymbol == some company.tickerSymbol ||
      (gicsCompanyOf catalog e).map (fun c => c.tickerSymbol) == some company.tickerSymbol)
  { company :=
      { tickerSymbol := company.tickerSymbol, companyName := company.companyName,
        gicsSector := company.gicsSector, gicsSubCategory := company.gicsSubCategory }
    eventsByDate := fun d =>
      (companyEvents.filter (fun e => jsDay e.startDate == d)).map (fun e =>
        (e, (eventRsvps rsvps e).find? (fun r => r.userID == uid))) }

/-- The date-axis loop of GET /api/calendar:
`while (current <= end) push(day(current)); current += 1 day`. -/
def dateGrid (current endTs : Int) : List Int :=
  if current ≤ endTs then jsDay current :: dateGrid (current + msPerDay) endTs
  else []
termination_by (endTs - current + msPerDay).toNat
decreasing_by
  simp only [msPerDay] at *
  omega

/-- Response of GET /api/calendar. -/
structure CalendarResponse where
  calendarData : List CalendarRow
  dateGrid : List Int
  rangeStart : Int
  rangeEnd : Int
  userSubscriptions : List SubRow
  totalEvents : Nat
  userRsvps : Nat
  eventsByType : String → Nat

/-- GET /api/calendar.  Fetches the in-range events, fetches the full
company catalog ordered by company name, builds one grid row per catalog
company, generates the day axis from `start` to `end` inclusive, fetches
the `ACTIVE` subscriptions of the caller, and computes the statistics.  The
handler never rejects the range: `start > end` simply produces an empty
axis. -/
def getCalendar (uid : String) (start endTs : Int) (filters : CalendarFilters)
    (events : List EventRow) (rsvps : List RSVPRow) (catalog : List CompanyRow)
    (subs : List SubRow) : CalendarResponse :=
  let evs := calendarEvents start endTs filters events
  let companies := catalog.mergeSort (fun a b => strLe a.companyName.data b.companyName.data)
  { calendarData := companies.map (calendarRowFor uid catalog rsvps evs)
    dateGrid := dateGrid start endTs
    rangeStart := jsDay start
    rangeEnd := jsDay endTs
    userSubscriptions := subs.filter (fun s => s.userID == uid && s.status == "ACTIVE")
    totalEvents := evs.length
    userRsvps := evs.foldl (fun n e =>
      n + ((eventRsvps rsvps e).filter (fun r => r.userID == uid)).length) 0
    eventsByType := fun t => (evs.filter (fun e => e.eventType == t)).length }

/-! ## GET /api/calendar/week (week view handler) -/

/-- Whether the user has an RSVP for the event: the `rsvps!inner` join
filtered by `rsvps.userID`. -/
def hasRsvp (uid : String) (rsvps : List RSVPRow) (e : EventRow) : Bool :=
  rsvps.any (fun r => r.userID == uid && r.eventID == e.eventID)

/-- `startOfWeek`: a copy of the anchor whose day-of-month is shifted by
`1 - getDay()`, keeping the time of day of the anchor.  For a Monday anchor
this is the anchor itself; for a Sunday anchor (`getDay() = 0`) it is
the NEXT day. -/
def startOfWeekTs (anchor : Int) : Int := anchor + (1 - jsGetDay anchor) * msPerDay

/-- `endOfWeek`: six days after `startOfWeek`, at 23:59:59.999. -/
def endOfWeekTs (anchor : Int) : Int :=
  (jsDay (startOfWeekTs anchor) + 6) * msPerDay + (msPerDay - 1)

/-- One day bucket of the week view: the day and its events. -/
structure WeekDayBucket where
  date : Int
  events : List EventRow

/-- Response of GET /api/calendar/week. -/
structure WeekResponse where
  weekData : List WeekDayBucket
  weekStart : Int
  weekEnd : Int

/-- GET /api/calendar/week.  Computes `startOfWeek`/`endOfWeek` from the
anchor, queries the events whose start timestamp lies in
`[startOfWeek, endOfWeek]` and that the caller has an RSVP for (inner
join), ordered by start date, and distributes them over 7 day buckets by
`toDateString()` equality with each of the 7 consecutive days. -/
def getCalendarWeek (uid : String) (anchor : Int) (events : List EventRow)
    (rsvps : List RSVPRow) : WeekResponse :=
  let sow := startOfWeekTs anchor
  let eow := endOfWeekTs anchor
  let evs := (events.filter (fun e =>
    decide (sow ≤ e.startDate) && decide (e.startDate ≤ eow) &&
      hasRsvp uid rsvps e)).mergeSort (fun a b => a.startDate ≤ b.startDate)
  { weekData := (List.range 7).map (fun (i : Nat) =>
      { date := jsDay sow + (i : Int)
        events := evs.filter (fun e => jsDay e.startDate == jsDay sow + (i : Int)) })
    weekStart := jsDay sow
    weekEnd := jsDay eow }

/-! ## Helper lemmas -/

theorem selectSingle_of_filter_nil {p : α → Bool} {l : List α}
    (h : l.filter p = []) : selectSingle p l = none := by
  unfold selectSingle
  rw [h]

theorem selectSingle_of_filter_singleton {p : α → Bool} {l : List α} {a : α}
    (h : l.filter p = [a]) : selectSingle p l = some a := by
  unfold selectSingle
  rw [h]

theorem map_ite_of_filter_nil {p : α → Bool} {f : α → α} {l : List α}
    (h : l.filter p = []) : l.map (fun r => if p r then f r else r) = l := by
  induction l with
  | nil => rfl
  | cons x xs ih =>
    rw [List.filter_cons] at h
    cases hp : p x with
    | true => simp [hp] at h
    | false =>
      simp only [hp, Bool.false_eq_true, if_false] at h
      simp [hp, ih h]

theorem mem_valid_status_ne_empty {s : String} (h : s ∈ validStatuses) : s ≠ "" := by
  fin_cases h <;> decide

/-- Unfolds the create path of the RSVP upsert: valid inputs, the event
present exactly once, and no stored RSVP for the key. -/
theorem postRsvp_create (u e s : String) (events : List EventRow)
    (rsvps : List RSVPRow) (he : e ≠ "") (hs : s ∈ validStatuses)
    (hev : ∃ ev, events.filter (fun x => x.eventID == e) = [ev])
    (hno : rsvps.filter (fun r => r.userID == u && r.eventID == e) = []) :
    postRsvp u ⟨some e, some s⟩ events rsvps =
      (.ok "RSVP created successfully",
        rsvps ++ [{ userID := u, eventID := e, status := s }]) := by
  obtain ⟨ev, hev⟩ := hev
  have hse : s ≠ "" := mem_valid_status_ne_empty hs
  simp [postRsvp, falsy, he, hse, hs,
    selectSingle_of_filter_singleton hev, selectSingle_of_filter_nil hno]

/-- Unfolds the update path of the RSVP upsert: valid inputs, the event
present exactly once, and exactly one stored RSVP for the key. -/
theorem postRsvp_update (u e s : String) (events : List EventRow)
    (rsvps : List RSVPRow) (r0 : RSVPRow) (he : e ≠ "") (hs : s ∈ validStatuses)
    (hev : ∃ ev, events.filter (fun x => x.eventID == e) = [ev])
    (hone : rsvps.filter (fun r => r.userID == u && r.eventID == e) = [r0]) :
    postRsvp u ⟨some e, some s⟩ events rsvps =
      (.ok "RSVP updated successfully",
        rsvps.map (fun r =>
          if r.userID == u && r.eventID == e then { r with status := s } else r)) := by
  obtain ⟨ev, hev⟩ := hev
  have hse : s ≠ "" := mem_valid_status_ne_empty hs
  simp [postRsvp, falsy, he, hse, hs,
    selectSingle_of_filter_singleton hev, selectSingle_of_filter_singleton hone]

/-! ## Claims -/

/-- C1: for every valid (userID, eventID) pair — the event stored exactly
once, no prior RSVP for the pair — and valid statuses `s1`, `s2`, calling
the RSVP upsert twice with `s1` then `s2` reports "created" then
"updated", leaves exactly one RSVP record for the pair whose status is
`s2`, and the final table equals the one a single upsert with `s2` would
have produced: the two paths agree apart from the message. -/
theorem rsvp_upsert_twice_C1 (u e s1 s2 : String) (events : List EventRow)
    (rsvps : List RSVPRow)
    (he : e ≠ "")
    (hev : ∃ ev, events.filter (fun x => x.eventID == e) = [ev])
    (hs1 : s1 ∈ validStatuses) (hs2 : s2 ∈ validStatuses)
    (hno : rsvps.filter (fun r => r.userID == u && r.eventID == e) = []) :
    (postRsvp u ⟨some e, some s1⟩ events rsvps).1 = .ok "RSVP created successfully" ∧
    (postRsvp u ⟨some e, some s2⟩ events
        (postRsvp u ⟨some e, some s1⟩ events rsvps).2).1 = .ok "RSVP updated successfully" ∧
    (postRsvp u ⟨some e, some s2⟩ events
        (postRsvp u ⟨some e, some s1⟩ events rsvps).2).2.filter
          (fun r => r.userID == u && r.eventID == e) =
      [{ userID := u, eventID := e, status := s2 }] ∧
    (postRsvp u ⟨some e, some s2⟩ events
        (postRsvp u ⟨some e, some s1⟩ events rsvps).2).2 =
      rsvps ++ [{ userID := u, eventID := e, status := s2 }] ∧
    (postRsvp u ⟨some e, some s2⟩ events rsvps).2 =
      rsvps ++ [{ userID := u, eventID := e, status := s2 }] := by
  have h1 := postRsvp_create u e s1 events rsvps he hs1 hev hno
  have h3 := postRsvp_create u e s2 events rsvps he hs2 hev hno
  have hone : (rsvps ++ [({ userID := u, eventID := e, status := s1 } : RSVPRow)]).filter
      (fun r => r.userID == u && r.eventID == e) =
      [{ userID := u, eventID := e, status := s1 }] := by
    rw [List.filter_append, hno]
    simp
  have h2 := postRsvp_update u e s2 events
    (rsvps ++ [{ userID := u, eventID := e, status := s1 }])
    { userID := u, eventID := e, status := s1 } he hs2 hev hone
  have hmap : (rsvps ++ [({ userID := u, eventID := e, status := s1 } : RSVPRow)]).map
      (fun r => if r.userID == u && r.eventID == e then { r with status := s2 } else r) =
      rsvps ++ [{ userID := u, eventID := e, status := s2 }] := by
    rw [List.map_append, map_ite_of_filter_nil hno]
    simp
  refine ⟨by rw [h1], ?_, ?_, ?_, by rw [h3]⟩
  · rw [h1, h2]
  · rw [h1, h2, hmap, List.filter_append, hno]
    simp
  · rw [h1, h2, hmap]

/-- A sample event row used by witness instantiations. -/
def sampleEvent : EventRow :=
  { eventID := "e1", eventName := "Q1 Earnings", tickerSymbol := none,
    gicsSector := none, eventType := "EARNINGS_CALL",
    startDate := 1712757600000, endDate := none }

theorem rsvp_upsert_twice_C1_witness :
    (postRsvp "u1" ⟨some "e1", some "ACCEPTED"⟩ [sampleEvent] []).1 =
        .ok "RSVP created successfully" ∧
    (postRsvp "u1" ⟨some "e1", some "TENTATIVE"⟩ [sampleEvent]
        (postRsvp "u1" ⟨some "e1", some "ACCEPTED"⟩ [sampleEvent] []).2).1 =
        .ok "RSVP updated successfully" ∧
    (postRsvp "u1" ⟨some "e1", some "TENTATIVE"⟩ [sampleEvent]
        (postRsvp "u1" ⟨some "e1", some "ACCEPTED"⟩ [sampleEvent] []).2).2.filter
          (fun r => r.userID == "u1" && r.eventID == "e1") =
      [{ userID := "u1", eventID := "e1", status := "TENTATIVE" }] ∧
    (postRsvp "u1" ⟨some "e1", some "TENTATIVE"⟩ [sampleEvent]
        (postRsvp "u1" ⟨some "e1", some "ACCEPTED"⟩ [sampleEvent] []).2).2 =
      [] ++ [{ userID := "u1", eventID := "e1", status := "TENTATIVE" }] ∧
    (postRsvp "u1" ⟨some "e1", some "TENTATIVE"⟩ [sampleEvent] []).2 =
      [] ++ [{ userID := "u1", eventID := "e1", status := "TENTATIVE" }] :=
  rsvp_upsert_twice_C1 "u1" "e1" "ACCEPTED" "TENTATIVE" [sampleEvent] []
    (by decide) ⟨sampleEvent, by decide⟩ (by decide) (by decide) (by decide)

theorem filter_of_filter_not {p : α → Bool} {l : List α} :
    (l.filter (fun r => !(p r))).filter p = [] := by
  rw [List.filter_filter]
  apply List.filter_eq_nil_iff.mpr
  intro a _
  simp


/-- C7: on a table with no row matching (userID, eventID) the RSVP
delete fails with NotFound and changes nothing; on a table holding a
matching row — exactly one, per the one-row-per-key invariant that
`.single()` relies on — the delete succeeds, keeps exactly the
non-matching rows, and repeating the same delete on the result returns
NotFound and changes nothing, so deleting twice yields success then
NotFound. -/
theorem deleteRsvp_C7 (u e : String) (absent present : List RSVPRow) (r0 : RSVPRow)
    (h0 : absent.filter (fun r => r.userID == u && r.eventID == e) = [])
    (h1 : present.filter (fun r => r.userID == u && r.eventID == e) = [r0]) :
    deleteRsvp u e absent = (.notFound, absent) ∧
    (deleteRsvp u e present).1 = .ok ∧
    (deleteRsvp u e present).2 =
      present.filter (fun r => !(r.userID == u && r.eventID == e)) ∧
    (deleteRsvp u e present).2.filter (fun r => r.userID == u && r.eventID == e) = [] ∧
    deleteRsvp u e (deleteRsvp u e present).2 =
      (.notFound, (deleteRsvp u e present).2) := by
  have hdel : deleteRsvp u e present =
      (.ok, present.filter (fun r => !(r.userID == u && r.eventID == e))) := by
    simp [deleteRsvp, selectSingle_of_filter_singleton h1]
  have hempty : (present.filter (fun r => !(r.userID == u && r.eventID == e))).filter
      (fun r => r.userID == u && r.eventID == e) = [] := filter_of_filter_not
  refine ⟨?_, by rw [hdel], by rw [hdel], by rw [hdel]; exact hempty, ?_⟩
  · simp [deleteRsvp, selectSingle_of_filter_nil h0]
  · rw [hdel]
    simp only [deleteRsvp, selectSingle_of_filter_nil hempty]

theorem deleteRsvp_C7_witness :
    deleteRsvp "u1" "e1" [] = (.notFound, []) ∧
    (deleteRsvp "u1" "e1"
      [{ userID := "u1", eventID := "e1", status := "ACCEPTED" }]).1 = .ok ∧
    (deleteRsvp "u1" "e1"
        [{ userID := "u1", eventID := "e1", status := "ACCEPTED" }]).2 =
      [({ userID := "u1", eventID := "e1", status := "ACCEPTED" } : RSVPRow)].filter
        (fun r => !(r.userID == "u1" && r.eventID == "e1")) ∧
    (deleteRsvp "u1" "e1"
        [{ userID := "u1", eventID := "e1", status := "ACCEPTED" }]).2.filter
      (fun r => r.userID == "u1" && r.eventID == "e1") = [] ∧
    deleteRsvp "u1" "e1"
        (deleteRsvp "u1" "e1"
          [{ userID := "u1", eventID := "e1", status := "ACCEPTED" }]).2 =
      (.notFound,
        (deleteRsvp "u1" "e1"
          [{ userID := "u1", eventID := "e1", status := "ACCEPTED" }]).2) :=
  deleteRsvp_C7 "u1" "e1" []
    [{ userID := "u1", eventID := "e1", status := "ACCEPTED" }]
    { userID := "u1", eventID := "e1", status := "ACCEPTED" }
    (by decide) (by decide)

/-- C9: argument validation precedes the existence checks in the RSVP
upsert.  A request whose `eventID` or `status` is missing (JS-falsy) or
whose `status` is not one of the four values yields InvalidArgument with
the table unchanged, uniformly in the `events` and `rsvps` tables — they
are universally quantified and do not influence the response, i.e. the
store is not consulted; and a call that returns NotFound must have had
both fields present and a valid status. -/
theorem postRsvp_validation_first_C9 (u v : String) (bad other : RSVPBody)
    (events evs2 : List EventRow) (rsvps rsvps2 : List RSVPRow)
    (hbad : (falsy bad.eventID || falsy bad.status ||
      !(validStatuses.contains (bad.status.getD ""))) = true) :
    (∃ msg, postRsvp u bad events rsvps = (.invalidArgument msg, rsvps)) ∧
    ((postRsvp v other evs2 rsvps2).1 = .notFound →
      falsy other.eventID = false ∧ falsy other.status = false ∧
        validStatuses.contains (other.status.getD "") = true) := by
  constructor
  · by_cases h1 : (falsy bad.eventID || falsy bad.status) = true
    · exact ⟨"Event ID and status are required", by simp [postRsvp, h1]⟩
    · have h2 : (!(validStatuses.contains (bad.status.getD ""))) = true := by
        rcases Bool.or_eq_true_iff.mp hbad with h | h
        · exact absurd h h1
        · exact h
      refine ⟨"Invalid RSVP status", ?_⟩
      have hmem : ¬ (bad.status.getD "" ∈ validStatuses) := by
        intro hm
        have hc : validStatuses.contains (bad.status.getD "") = true := by
          simpa using hm
        rw [hc] at h2
        simp at h2
      simp only [Bool.not_eq_true] at h1
      simp [postRsvp, h1, hmem]
  · intro hnf
    by_cases h1 : (falsy other.eventID || falsy other.status) = true
    · simp [postRsvp, h1] at hnf
    · by_cases h2 : validStatuses.contains (other.status.getD "") = true
      · simp only [Bool.or_eq_true, not_or, Bool.not_eq_true] at h1
        exact ⟨h1.1, h1.2, h2⟩
      · have hmem : ¬ (other.status.getD "" ∈ validStatuses) := by
          intro hm
          have hc : validStatuses.contains (other.status.getD "") = true := by
            simpa using hm
          rw [hc] at h2
          simp at h2
        simp only [Bool.not_eq_true] at h1 h2
        simp [postRsvp, h1, hmem] at hnf

theorem postRsvp_validation_first_C9_witness :
    (∃ msg, postRsvp "u1" ⟨some "e1", some "MAYBE"⟩ [sampleEvent] [] =
      (.invalidArgument msg, [])) ∧
    ((postRsvp "u1" ⟨some "missing", some "ACCEPTED"⟩ [sampleEvent] []).1 = .notFound →
      falsy (some "missing") = false ∧ falsy (some "ACCEPTED") = false ∧
        validStatuses.contains ((some "ACCEPTED").getD "") = true) :=
  postRsvp_validation_first_C9 "u1" "u1" ⟨some "e1", some "MAYBE"⟩
    ⟨some "missing", some "ACCEPTED"⟩ [sampleEvent] [sampleEvent] [] [] (by decide)

theorem length_eq_sum_status_filters (rows : List RSVPRow)
    (h : ∀ r ∈ rows, r.status ∈ validStatuses) :
    rows.length =
      (rows.filter (fun r => r.status == "ACCEPTED")).length +
        (rows.filter (fun r => r.status == "DECLINED")).length +
        (rows.filter (fun r => r.status == "TENTATIVE")).length +
        (rows.filter (fun r => r.status == "PENDING")).length := by
  induction rows with
  | nil => rfl
  | cons r rs ih =>
    have hr := h r (List.mem_cons_self r rs)
    have hrs : ∀ x ∈ rs, x.status ∈ validStatuses :=
      fun x hx => h x (List.mem_cons_of_mem r hx)
    have hsum := ih hrs
    simp only [validStatuses, List.mem_cons, List.mem_singleton,
      List.not_mem_nil, or_false] at hr
    rcases hr with hs | hs | hs | hs <;>
      simp [List.filter_cons, hs, hsum] <;> omega

/-- C10: in the event-RSVP listing, a returned RSVP lies in the status
bucket keyed by its own status and in no other, and each reported count
equals the size of its bucket, so when every stored status is one of the four
valid values the statistics satisfy
total = accepted + declined + tentative + pending. -/
theorem getEventRsvps_statistics_C10 (eventID : String)
    (statusFilter : Option String) (rsvps : List RSVPRow)
    (hvalid : ∀ r ∈ rsvps, r.status ∈ validStatuses) :
    (∀ r ∈ (getEventRsvps eventID statusFilter rsvps).rsvps, ∀ s,
      (r ∈ (getEventRsvps eventID statusFilter rsvps).rsvpsByStatus s ↔ s = r.status)) ∧
    (getEventRsvps eventID statusFilter rsvps).statistics.accepted =
      ((getEventRsvps eventID statusFilter rsvps).rsvpsByStatus "ACCEPTED").length ∧
    (getEventRsvps eventID statusFilter rsvps).statistics.declined =
      ((getEventRsvps eventID statusFilter rsvps).rsvpsByStatus "DECLINED").length ∧
    (getEventRsvps eventID statusFilter rsvps).statistics.tentative =
      ((getEventRsvps eventID statusFilter rsvps).rsvpsByStatus "TENTATIVE").length ∧
    (getEventRsvps eventID statusFilter rsvps).statistics.pending =
      ((getEventRsvps eventID statusFilter rsvps).rsvpsByStatus "PENDING").length ∧
    (getEventRsvps eventID statusFilter rsvps).statistics.total =
      (getEventRsvps eventID statusFilter rsvps).statistics.accepted +
        (getEventRsvps eventID statusFilter rsvps).statistics.declined +
        (getEventRsvps eventID statusFilter rsvps).statistics.tentative +
        (getEventRsvps eventID statusFilter rsvps).statistics.pending := by
  refine ⟨?_, rfl, rfl, rfl, rfl, ?_⟩
  · intro r hr s
    simp only [getEventRsvps, List.mem_filter] at hr ⊢
    constructor
    · intro hmem
      have := hmem.2
      simp only [beq_iff_eq] at this
      exact this.symm
    · intro hs
      exact ⟨hr, by simp [hs]⟩
  · apply length_eq_sum_status_filters
    intro r hr
    exact hvalid r (List.mem_filter.mp hr).1

theorem getEventRsvps_statistics_C10_witness :
    (∀ r ∈ (getEventRsvps "e1" none
        [{ userID := "u1", eventID := "e1", status := "ACCEPTED" },
         { userID := "u2", eventID := "e1", status := "PENDING" }]).rsvps, ∀ s,
      (r ∈ (getEventRsvps "e1" none
        [{ userID := "u1", eventID := "e1", status := "ACCEPTED" },
         { userID := "u2", eventID := "e1", status := "PENDING" }]).rsvpsByStatus s ↔
        s = r.status)) ∧
    (getEventRsvps "e1" none
        [{ userID := "u1", eventID := "e1", status := "ACCEPTED" },
         { userID := "u2", eventID := "e1", status := "PENDING" }]).statistics.accepted =
      ((getEventRsvps "e1" none
        [{ userID := "u1", eventID := "e1", status := "ACCEPTED" },
         { userID := "u2", eventID := "e1", status := "PENDING" }]).rsvpsByStatus
          "ACCEPTED").length ∧
    (getEventRsvps "e1" none
        [{ userID := "u1", eventID := "e1", status := "ACCEPTED" },
         { userID := "u2", eventID := "e1", status := "PENDING" }]).statistics.declined =
      ((getEventRsvps "e1" none
        [{ userID := "u1", eventID := "e1", status := "ACCEPTED" },
         { userID := "u2", eventID := "e1", status := "PENDING" }]).rsvpsByStatus
          "DECLINED").length ∧
    (getEventRsvps "e1" none
        [{ userID := "u1", eventID := "e1", status := "ACCEPTED" },
         { userID := "u2", eventID := "e1", status := "PENDING" }]).statistics.tentative =
      ((getEventRsvps "e1" none
        [{ userID := "u1", eventID := "e1", status := "ACCEPTED" },
         { userID := "u2", eventID := "e1", status := "PENDING" }]).rsvpsByStatus
          "TENTATIVE").length ∧
    (getEventRsvps "e1" none
        [{ userID := "u1", eventID := "e1", status := "ACCEPTED" },
         { userID := "u2", eventID := "e1", status := "PENDING" }]).statistics.pending =
      ((getEventRsvps "e1" none
        [{ userID := "u1", eventID := "e1", status := "ACCEPTED" },
         { userID := "u2", eventID := "e1", status := "PENDING" }]).rsvpsByStatus
          "PENDING").length ∧
    (getEventRsvps "e1" none
        [{ userID := "u1", eventID := "e1", status := "ACCEPTED" },
         { userID := "u2", eventID := "e1", status := "PENDING" }]).statistics.total =
      (getEventRsvps "e1" none
        [{ userID := "u1", eventID := "e1", status := "ACCEPTED" },
         { userID := "u2", eventID := "e1", status := "PENDING" }]).statistics.accepted +
        (getEventRsvps "e1" none
          [{ userID := "u1", eventID := "e1", status := "ACCEPTED" },
           { userID := "u2", eventID := "e1", status := "PENDING" }]).statistics.declined +
        (getEventRsvps "e1" none
          [{ userID := "u1", eventID := "e1", status := "ACCEPTED" },
           { userID := "u2", eventID := "e1", status := "PENDING" }]).statistics.tentative +
        (getEventRsvps "e1" none
          [{ userID := "u1", eventID := "e1", status := "ACCEPTED" },
           { userID := "u2", eventID := "e1", status := "PENDING" }]).statistics.pending :=
  getEventRsvps_statistics_C10 "e1" none
    [{ userID := "u1", eventID := "e1", status := "ACCEPTED" },
     { userID := "u2", eventID := "e1", status := "PENDING" }]
    (by decide)

/-- Unfolds the create path of the subscription create: sector present
and no ACTIVE row for the exact (userID, sector, subCategory) tuple. -/
theorem postSubscription_created (uid sector : String) (cat : Option String)
    (se : Option Int) (now : Int) (newID : String) (subs : List SubRow)
    (hsector : sector ≠ "")
    (hno : subs.filter (fun r => r.userID == uid && r.gicsSector == sector &&
      r.gicsSubCategory == normSubCat cat && r.status == "ACTIVE") = []) :
    postSubscription uid ⟨some sector, cat, se⟩ now newID subs =
      (.created, subs ++
        [{ subID := newID, userID := uid, gicsSector := sector,
           gicsSubCategory := normSubCat cat, subStart := now, subEnd := se,
           status := "ACTIVE" }]) := by
  simp only [postSubscription, falsy, Option.getD_some]
  rw [hno]
  simp [hsector]

/-- Unfolds the conflict path of the subscription create: some ACTIVE
row already matches the exact tuple. -/
theorem postSubscription_conflict (uid sector : String) (cat : Option String)
    (se : Option Int) (now : Int) (newID : String) (subs : List SubRow)
    (r0 : SubRow) (rest : List SubRow)
    (hsector : sector ≠ "")
    (hhit : subs.filter (fun r => r.userID == uid && r.gicsSector == sector &&
      r.gicsSubCategory == normSubCat cat && r.status == "ACTIVE") = r0 :: rest) :
    postSubscription uid ⟨some sector, cat, se⟩ now newID subs =
      (.conflict, subs) := by
  simp only [postSubscription, falsy, Option.getD_some]
  rw [hhit]
  simp [hsector]

/-- C2: with no prior ACTIVE subscription for the exact tuple, a create
for (uid, sector, c1) succeeds and inserts an ACTIVE row; while that row
is present (and still ACTIVE), a second create by the same user with the
identical (sector, subCategory) tuple fails with Conflict and inserts
nothing; and a create whose sub-category normalizes (`|| null`) to a
different value — null being a distinct value, not a wildcard — does not
conflict and inserts. -/
theorem postSubscription_dedup_C2 (uid sector : String) (c1 c2 : Option String)
    (se1 se2 se3 : Option Int) (now1 now2 now3 : Int) (id1 id2 id3 : String)
    (subs : List SubRow)
    (hsector : sector ≠ "")
    (hno1 : subs.filter (fun r => r.userID == uid && r.gicsSector == sector &&
      r.gicsSubCategory == normSubCat c1 && r.status == "ACTIVE") = [])
    (hdiff : normSubCat c2 ≠ normSubCat c1)
    (hno2 : subs.filter (fun r => r.userID == uid && r.gicsSector == sector &&
      r.gicsSubCategory == normSubCat c2 && r.status == "ACTIVE") = []) :
    (postSubscription uid ⟨some sector, c1, se1⟩ now1 id1 subs).1 = .created ∧
    (postSubscription uid ⟨some sector, c1, se1⟩ now1 id1 subs).2 =
      subs ++
        [{ subID := id1, userID := uid, gicsSector := sector,
           gicsSubCategory := normSubCat c1, subStart := now1, subEnd := se1,
           status := "ACTIVE" }] ∧
    (postSubscription uid ⟨some sector, c1, se2⟩ now2 id2
        (postSubscription uid ⟨some sector, c1, se1⟩ now1 id1 subs).2) =
      (.conflict, (postSubscription uid ⟨some sector, c1, se1⟩ now1 id1 subs).2) ∧
    (postSubscription uid ⟨some sector, c2, se3⟩ now3 id3
        (postSubscription uid ⟨some sector, c1, se1⟩ now1 id1 subs).2).1 = .created := by
  have h1 := postSubscription_created uid sector c1 se1 now1 id1 subs hsector hno1
  set row1 : SubRow :=
    { subID := id1, userID := uid, gicsSector := sector,
      gicsSubCategory := normSubCat c1, subStart := now1, subEnd := se1,
      status := "ACTIVE" } with hrow1
  have hhit : (subs ++ [row1]).filter (fun r => r.userID == uid &&
      r.gicsSector == sector && r.gicsSubCategory == normSubCat c1 &&
      r.status == "ACTIVE") = row1 :: [] := by
    rw [List.filter_append, hno1]
    simp [hrow1]
  have h2 := postSubscription_conflict uid sector c1 se2 now2 id2
    (subs ++ [row1]) row1 [] hsector hhit
  have hno3 : (subs ++ [row1]).filter (fun r => r.userID == uid &&
      r.gicsSector == sector && r.gicsSubCategory == normSubCat c2 &&
      r.status == "ACTIVE") = [] := by
    rw [List.filter_append, hno2]
    simp [hrow1, Ne.symm hdiff]
  have h3 := postSubscription_created uid sector c2 se3 now3 id3
    (subs ++ [row1]) hsector hno3
  refine ⟨by rw [h1], by rw [h1], ?_, ?_⟩
  · rw [h1]
    exact h2
  · rw [h1]
    rw [h3]

theorem postSubscription_dedup_C2_witness :
    (postSubscription "u1" ⟨some "Energy", some "Oil", none⟩ 0 "s1" []).1 = .created ∧
    (postSubscription "u1" ⟨some "Energy", some "Oil", none⟩ 0 "s1" []).2 =
      [] ++
        [{ subID := "s1", userID := "u1", gicsSector := "Energy",
           gicsSubCategory := normSubCat (some "Oil"), subStart := 0, subEnd := none,
           status := "ACTIVE" }] ∧
    (postSubscription "u1" ⟨some "Energy", some "Oil", none⟩ 5 "s2"
        (postSubscription "u1" ⟨some "Energy", some "Oil", none⟩ 0 "s1" []).2) =
      (.conflict, (postSubscription "u1" ⟨some "Energy", some "Oil", none⟩ 0 "s1" []).2) ∧
    (postSubscription "u1" ⟨some "Energy", none, none⟩ 9 "s3"
        (postSubscription "u1" ⟨some "Energy", some "Oil", none⟩ 0 "s1" []).2).1 =
      .created :=
  postSubscription_dedup_C2 "u1" "Energy" (some "Oil") none none none none 0 5 9
    "s1" "s2" "s3" [] (by decide) (by decide) (by decide) (by decide)

/-- C8: a subscription update naming an id with no stored row fails with
NotFound, and an update by a caller who is not the stored owner fails
with Forbidden; in both cases the subscriptions table is returned
unchanged in every field. -/
theorem putSubscription_owner_C8 (uid vid missingID realID : String)
    (body1 body2 : SubUpdateBody) (subs0 subs : List SubRow) (owner : SubRow)
    (hmiss : subs0.filter (fun r => r.subID == missingID) = [])
    (hone : subs.filter (fun r => r.subID == realID) = [owner])
    (hnotowner : owner.userID ≠ vid) :
    putSubscription uid missingID body1 subs0 = (.notFound, subs0) ∧
    putSubscription vid realID body2 subs = (.forbidden, subs) := by
  constructor
  · simp [putSubscription, selectSingle_of_filter_nil hmiss]
  · simp [putSubscription, selectSingle_of_filter_singleton hone, hnotowner]

theorem putSubscription_owner_C8_witness :
    putSubscription "u1" "sX" ⟨none, none, none, none⟩ [] = (.notFound, []) ∧
    putSubscription "u2" "s1" ⟨none, none, none, some "INACTIVE"⟩
        [{ subID := "s1", userID := "u1", gicsSector := "Energy",
           gicsSubCategory := none, subStart := 0, subEnd := none,
           status := "ACTIVE" }] =
      (.forbidden,
        [{ subID := "s1", userID := "u1", gicsSector := "Energy",
           gicsSubCategory := none, subStart := 0, subEnd := none,
           status := "ACTIVE" }]) :=
  putSubscription_owner_C8 "u1" "u2" "sX" "s1" ⟨none, none, none, none⟩
    ⟨none, none, none, some "INACTIVE"⟩ []
    [{ subID := "s1", userID := "u1", gicsSector := "Energy",
       gicsSubCategory := none, subStart := 0, subEnd := none,
       status := "ACTIVE" }]
    { subID := "s1", userID := "u1", gicsSector := "Energy",
      gicsSubCategory := none, subStart := 0, subEnd := none,
      status := "ACTIVE" }
    (by decide) (by decide) (by decide)

/-- C6: an admin event-creation request that passes the field and type
checks but has `endDate ≤ startDate` fails with InvalidArgument and
inserts nothing, while the same request with `endDate` strictly after
`startDate` passes the date validation and inserts the event. -/
theorem postEvent_dates_C6 (nm ty : String) (tk sec : Option String)
    (s en1 en2 : Int) (newID : String) (events : List EventRow)
    (hnm : nm ≠ "") (hty : ty ∈ validEventTypes)
    (hle : en1 ≤ s) (hgt : s < en2) :
    postEvent "IR_ADMIN" ⟨some nm, tk, sec, some ty, some s, some en1⟩ newID events =
      (.invalidArgument "End date must be after start date", events) ∧
    postEvent "IR_ADMIN" ⟨some nm, tk, sec, some ty, some s, some en2⟩ newID events =
      (.created, events ++
        [{ eventID := newID, eventName := nm, tickerSymbol := tk,
           gicsSector := sec, eventType := ty, startDate := s,
           endDate := some en2 }]) := by
  have htyne : ty ≠ "" := by fin_cases hty <;> decide
  constructor
  · simp [postEvent, falsy, hnm, htyne, hty, hle]
  · simp [postEvent, falsy, hnm, htyne, hty, not_le.mpr hgt]

theorem postEvent_dates_C6_witness :
    postEvent "IR_ADMIN"
        ⟨some "Q1 Earnings", none, none, some "EARNINGS_CALL",
          some 1712757600000, some 1712757600000⟩ "e9" [] =
      (.invalidArgument "End date must be after start date", []) ∧
    postEvent "IR_ADMIN"
        ⟨some "Q1 Earnings", none, none, some "EARNINGS_CALL",
          some 1712757600000, some 1712761200000⟩ "e9" [] =
      (.created, [] ++
        [{ eventID := "e9", eventName := "Q1 Earnings", tickerSymbol := none,
           gicsSector := none, eventType := "EARNINGS_CALL",
           startDate := 1712757600000, endDate := some 1712761200000 }]) :=
  postEvent_dates_C6 "Q1 Earnings" "EARNINGS_CALL" none none
    1712757600000 1712757600000 1712761200000 "e9" []
    (by decide) (by decide) (by decide) (by decide)

theorem jsDay_mul (d : Int) : jsDay (d * msPerDay) = d := by
  unfold jsDay msPerDay
  omega

theorem startOfWeekTs_mul (d : Int) :
    startOfWeekTs (d * msPerDay) = (d + 1 - (d + 4) % 7) * msPerDay := by
  unfold startOfWeekTs jsGetDay jsDay msPerDay
  omega

theorem endOfWeekTs_mul (d : Int) :
    endOfWeekTs (d * msPerDay) = (d + 1 - (d + 4) % 7 + 7) * msPerDay - 1 := by
  unfold endOfWeekTs startOfWeekTs jsGetDay jsDay msPerDay
  omega

/-- The date-axis loop on a midnight-aligned range is the explicit
enumeration of the days from `ds` through `de`. -/
theorem dateGrid_eq (de : Int) : ∀ (n : Nat) (ds : Int), (de - ds + 1).toNat = n →
    dateGrid (ds * msPerDay) (de * msPerDay) =
      (List.range n).map (fun (k : Nat) => ds + (k : Int)) := by
  intro n
  induction n with
  | zero =>
    intro ds h0
    have : ¬(ds * msPerDay ≤ de * msPerDay) := by
      simp only [msPerDay]
      omega
    unfold dateGrid
    simp [this]
  | succ n ih =>
    intro ds h
    have hle2 : ds * msPerDay ≤ de * msPerDay := by
      simp only [msPerDay]
      omega
    rw [dateGrid]
    rw [if_pos hle2, jsDay_mul]
    have hnext : ds * msPerDay + msPerDay = (ds + 1) * msPerDay := by ring
    rw [hnext, ih (ds + 1) (by omega)]
    rw [List.range_succ_eq_map, List.map_cons, List.map_map]
    congr 1
    · omega
    · apply List.map_congr_left
      intro k _
      simp [Function.comp]
      omega

/-- C4: on a midnight-aligned range, the date axis of the calendar response
is exactly the enumeration of the calendar days from `ds` through `de`
— one entry per day, inclusive — so its length is the inclusive day
count (31 for 2024-03-01 through 2024-03-31, days 19783..19813); and a
range with start after end still produces a response, whose date axis is
empty. -/
theorem getCalendar_dateAxis_C4 (uid : String) (ds de : Int)
    (filters : CalendarFilters) (events : List EventRow) (rsvps : List RSVPRow)
    (catalog : List CompanyRow) (subs : List SubRow) :
    (getCalendar uid (ds * msPerDay) (de * msPerDay) filters events rsvps
        catalog subs).dateGrid =
      (List.range (de - ds + 1).toNat).map (fun (k : Nat) => ds + (k : Int)) ∧
    (getCalendar uid (ds * msPerDay) (de * msPerDay) filters events rsvps
        catalog subs).dateGrid.length = (de - ds + 1).toNat ∧
    (de < ds →
      (getCalendar uid (ds * msPerDay) (de * msPerDay) filters events rsvps
        catalog subs).dateGrid = []) := by
  have hg : (getCalendar uid (ds * msPerDay) (de * msPerDay) filters events rsvps
      catalog subs).dateGrid = dateGrid (ds * msPerDay) (de * msPerDay) := rfl
  have h := dateGrid_eq de (de - ds + 1).toNat ds rfl
  refine ⟨by rw [hg, h], by rw [hg, h]; simp, ?_⟩
  intro hlt
  have h0 : (de - ds + 1).toNat = 0 := by omega
  rw [hg, h, h0]
  simp

theorem getCalendar_dateAxis_C4_witness :
    (getCalendar "u1" (19783 * msPerDay) (19813 * msPerDay)
        ⟨none, none, none⟩ [] [] [] []).dateGrid =
      (List.range ((19813 : Int) - 19783 + 1).toNat).map
        (fun (k : Nat) => (19783 : Int) + (k : Int)) ∧
    (getCalendar "u1" (19783 * msPerDay) (19813 * msPerDay)
        ⟨none, none, none⟩ [] [] [] []).dateGrid.length =
      ((19813 : Int) - 19783 + 1).toNat ∧
    ((19813 : Int) < 19783 →
      (getCalendar "u1" (19783 * msPerDay) (19813 * msPerDay)
        ⟨none, none, none⟩ [] [] [] []).dateGrid = []) :=
  getCalendar_dateAxis_C4 "u1" 19783 19813 ⟨none, none, none⟩ [] [] [] []

theorem char_toNat_inj {c d : Char} (h : c.toNat = d.toNat) : c = d :=
  Char.ext (UInt32.ext h)

theorem strLe_total : ∀ a b : List Char, (strLe a b || strLe b a) = true := by
  intro a
  induction a with
  | nil =>
    intro b
    simp [strLe]
  | cons c as ih =>
    intro b
    cases b with
    | nil => simp [strLe]
    | cons d bs =>
      by_cases h : c = d
      · subst h
        simpa [strLe] using ih bs
      · have hne : c.toNat ≠ d.toNat := fun hv => h (char_toNat_inj hv)
        simp [strLe, h, Ne.symm h]
        omega

theorem strLe_trans : ∀ a b c : List Char,
    strLe a b = true → strLe b c = true → strLe a c = true := by
  intro a
  induction a with
  | nil =>
    intro b c _ _
    simp [strLe]
  | cons x as ih =>
    intro b c h1 h2
    cases b with
    | nil => simp [strLe] at h1
    | cons y bs =>
      cases c with
      | nil => simp [strLe] at h2
      | cons z cs =>
        simp only [strLe] at h1 h2 ⊢
        by_cases hxy : x = y
        · subst hxy
          by_cases hxz : x = z
          · subst hxz
            simp only [if_pos rfl] at h1 h2 ⊢
            exact ih bs cs h1 h2
          · simp only [if_neg hxz] at h2 ⊢
            exact h2
        · by_cases hyz : y = z
          · subst hyz
            simp only [if_neg hxy] at h1 ⊢
            exact h1
          · simp only [if_neg hxy, if_neg hyz] at h1 h2
            have h1n := of_decide_eq_true h1
            have h2n := of_decide_eq_true h2
            have hxz : x ≠ z := by
              intro he
              subst he
              omega
            simp only [if_neg hxz]
            exact decide_eq_true (by omega)

/-- C5: the calendar grid has exactly one row per company of the catalog
— the `company` projections of the row list are a permutation of the catalog,
presented in company-name order — for every event table, filter setting
and date range; its length always equals the size of the catalog; an empty
catalog yields an empty grid while a well-ordered range still populates
the date axis. -/
theorem getCalendar_rows_C5 (uid : String) (start endTs : Int)
    (filters : CalendarFilters) (events : List EventRow) (rsvps : List RSVPRow)
    (catalog : List CompanyRow) (subs : List SubRow) :
    (getCalendar uid start endTs filters events rsvps catalog subs).calendarData.length =
      catalog.length ∧
    (getCalendar uid start endTs filters events rsvps catalog
        subs).calendarData.map (fun row => row.company) =
      (catalog.mergeSort (fun a b => strLe a.companyName.data b.companyName.data)).map
        (fun c => { tickerSymbol := c.tickerSymbol, companyName := c.companyName,
                    gicsSector := c.gicsSector, gicsSubCategory := c.gicsSubCategory }) ∧
    ((getCalendar uid start endTs filters events rsvps catalog
        subs).calendarData.map (fun row => row.company)).Perm
      (catalog.map
        (fun c => { tickerSymbol := c.tickerSymbol, companyName := c.companyName,
                    gicsSector := c.gicsSector, gicsSubCategory := c.gicsSubCategory })) ∧
    List.Pairwise
      (fun r1 r2 =>
        strLe r1.company.companyName.data r2.company.companyName.data = true)
      (getCalendar uid start endTs filters events rsvps catalog subs).calendarData ∧
    (catalog = [] →
      (getCalendar uid start endTs filters events rsvps catalog subs).calendarData = []) ∧
    (start ≤ endTs →
      (getCalendar uid start endTs filters events rsvps catalog subs).dateGrid ≠ []) := by
  have hmap : (getCalendar uid start endTs filters events rsvps catalog
      subs).calendarData.map (fun row => row.company) =
      (catalog.mergeSort (fun a b => strLe a.companyName.data b.companyName.data)).map
        (fun c => { tickerSymbol := c.tickerSymbol, companyName := c.companyName,
                    gicsSector := c.gicsSector, gicsSubCategory := c.gicsSubCategory }) := by
    simp only [getCalendar, List.map_map]
    rfl
  refine ⟨?_, hmap, ?_, ?_, ?_, ?_⟩
  · simp [getCalendar, List.length_mergeSort]
  · rw [hmap]
    exact (List.mergeSort_perm catalog
      (fun a b => strLe a.companyName.data b.companyName.data)).map _
  · simp only [getCalendar]
    rw [List.pairwise_map]
    exact List.sorted_mergeSort
      (fun a b c => strLe_trans a.companyName.data b.companyName.data c.companyName.data)
      (fun a b => strLe_total a.companyName.data b.companyName.data)
      catalog
  · intro hc
    subst hc
    simp [getCalendar]
  · intro hse
    have hg : (getCalendar uid start endTs filters events rsvps catalog
        subs).dateGrid = dateGrid start endTs := rfl
    rw [hg, dateGrid, if_pos hse]
    simp

theorem getCalendar_rows_C5_witness :
    (getCalendar "u1" 0 msPerDay ⟨none, none, none⟩ [] []
        [{ tickerSymbol := "ZZZ", companyName := "Zeta", gicsSector := "Energy",
           gicsSubCategory := "Oil" },
         { tickerSymbol := "AAA", companyName := "Alpha", gicsSector := "Energy",
           gicsSubCategory := "Gas" }] []).calendarData.length = 2 ∧
    (getCalendar "u1" 0 msPerDay ⟨none, none, none⟩ [] []
        [{ tickerSymbol := "ZZZ", companyName := "Zeta", gicsSector := "Energy",
           gicsSubCategory := "Oil" },
         { tickerSymbol := "AAA", companyName := "Alpha", gicsSector := "Energy",
           gicsSubCategory := "Gas" }] []).calendarData.map (fun row => row.company) =
      ([({ tickerSymbol := "ZZZ", companyName := "Zeta", gicsSector := "Energy",
           gicsSubCategory := "Oil" } : CompanyRow),
        { tickerSymbol := "AAA", companyName := "Alpha", gicsSector := "Energy",
          gicsSubCategory := "Gas" }].mergeSort
        (fun a b => strLe a.companyName.data b.companyName.data)).map
        (fun c => { tickerSymbol := c.tickerSymbol, companyName := c.companyName,
                    gicsSector := c.gicsSector, gicsSubCategory := c.gicsSubCategory }) ∧
    ((getCalendar "u1" 0 msPerDay ⟨none, none, none⟩ [] []
        [{ tickerSymbol := "ZZZ", companyName := "Zeta", gicsSector := "Energy",
           gicsSubCategory := "Oil" },
         { tickerSymbol := "AAA", companyName := "Alpha", gicsSector := "Energy",
           gicsSubCategory := "Gas" }] []).calendarData.map (fun row => row.company)).Perm
      ([({ tickerSymbol := "ZZZ", companyName := "Zeta", gicsSector := "Energy",
           gicsSubCategory := "Oil" } : CompanyRow),
        { tickerSymbol := "AAA", companyName := "Alpha", gicsSector := "Energy",
          gicsSubCategory := "Gas" }].map
        (fun c => { tickerSymbol := c.tickerSymbol, companyName := c.companyName,
                    gicsSector := c.gicsSector, gicsSubCategory := c.gicsSubCategory })) ∧
    List.Pairwise
      (fun r1 r2 =>
        strLe r1.company.companyName.data r2.company.companyName.data = true)
      (getCalendar "u1" 0 msPerDay ⟨none, none, none⟩ [] []
        [{ tickerSymbol := "ZZZ", companyName := "Zeta", gicsSector := "Energy",
           gicsSubCategory := "Oil" },
         { tickerSymbol := "AAA", companyName := "Alpha", gicsSector := "Energy",
           gicsSubCategory := "Gas" }] []).calendarData ∧
    (([({ tickerSymbol := "ZZZ", companyName := "Zeta", gicsSector := "Energy",
          gicsSubCategory := "Oil" } : CompanyRow),
       { tickerSymbol := "AAA", companyName := "Alpha", gicsSector := "Energy",
         gicsSubCategory := "Gas" }] : List CompanyRow) = [] →
      (getCalendar "u1" 0 msPerDay ⟨none, none, none⟩ [] []
        [{ tickerSymbol := "ZZZ", companyName := "Zeta", gicsSector := "Energy",
           gicsSubCategory := "Oil" },
         { tickerSymbol := "AAA", companyName := "Alpha", gicsSector := "Energy",
           gicsSubCategory := "Gas" }] []).calendarData = []) ∧
    ((0 : Int) ≤ msPerDay →
      (getCalendar "u1" 0 msPerDay ⟨none, none, none⟩ [] []
        [{ tickerSymbol := "ZZZ", companyName := "Zeta", gicsSector := "Energy",
           gicsSubCategory := "Oil" },
         { tickerSymbol := "AAA", companyName := "Alpha", gicsSector := "Energy",
           gicsSubCategory := "Gas" }] []).dateGrid ≠ []) :=
  getCalendar_rows_C5 "u1" 0 msPerDay ⟨none, none, none⟩ [] []
    [{ tickerSymbol := "ZZZ", companyName := "Zeta", gicsSector := "Energy",
       gicsSubCategory := "Oil" },
     { tickerSymbol := "AAA", companyName := "Alpha", gicsSector := "Energy",
       gicsSubCategory := "Gas" }] []

/-- Counterexample for C3: for the Sunday anchor 1970-01-04 (day 3,
`getDay() = 0`, midnight), the range of the week view is days 4..10 — the
following Monday-start week — which does not contain the anchor date,
refuting "the returned week range always includes the anchor date". -/
theorem getCalendarWeek_C3_counterexample :
    ¬((getCalendarWeek "u1" (3 * msPerDay) [] []).weekStart ≤ jsDay (3 * msPerDay) ∧
      jsDay (3 * msPerDay) ≤ (getCalendarWeek "u1" (3 * msPerDay) [] []).weekEnd) := by
  decide

/-- C3 amended: for a midnight anchor on day `d` whose JS weekday is not
Sunday, the week view computes the Monday-start week containing the
anchor — `weekStart` is a Monday, `weekEnd = weekStart + 6`, and the
anchor day lies inside — and returns exactly 7 day buckets whose i-th
bucket is day `weekStart + i` and holds exactly the stored events the
requesting user has an RSVP for whose start date falls on that day.  (For
a Sunday anchor the `- getDay() + 1` shift lands on the NEXT day, so the
computed week is the following week and excludes the anchor, as the
counterexample shows.) -/
theorem getCalendarWeek_C3_amended (uid : String) (d w : Int)
    (events : List EventRow) (rsvps : List RSVPRow)
    (hnotsun : (d + 4) % 7 ≠ 0)
    (hw : w = jsDay (startOfWeekTs (d * msPerDay))) :
    (getCalendarWeek uid (d * msPerDay) events rsvps).weekData.length = 7 ∧
    (getCalendarWeek uid (d * msPerDay) events rsvps).weekStart = w ∧
    (getCalendarWeek uid (d * msPerDay) events rsvps).weekEnd = w + 6 ∧
    (w + 4) % 7 = 1 ∧
    w ≤ d ∧ d ≤ w + 6 ∧
    (∀ i : Nat,
      ∀ hi : i < (getCalendarWeek uid (d * msPerDay) events rsvps).weekData.length,
      ((getCalendarWeek uid (d * msPerDay) events rsvps).weekData.get ⟨i, hi⟩).date =
        w + i ∧
      (∀ e, e ∈ ((getCalendarWeek uid (d * msPerDay) events
          rsvps).weekData.get ⟨i, hi⟩).events ↔
        (e ∈ events ∧ hasRsvp uid rsvps e = true ∧ jsDay e.startDate = w + i))) := by
  have hsow : startOfWeekTs (d * msPerDay) = (d + 1 - (d + 4) % 7) * msPerDay :=
    startOfWeekTs_mul d
  have hwd : w = d + 1 - (d + 4) % 7 := by rw [hw, hsow, jsDay_mul]
  have hsow2 : startOfWeekTs (d * msPerDay) = w * msPerDay := by rw [hsow, ← hwd]
  have heow2 : endOfWeekTs (d * msPerDay) = (w + 7) * msPerDay - 1 := by
    rw [endOfWeekTs_mul, ← hwd]
  have hws : (getCalendarWeek uid (d * msPerDay) events rsvps).weekStart =
      jsDay (startOfWeekTs (d * msPerDay)) := rfl
  have hwe : (getCalendarWeek uid (d * msPerDay) events rsvps).weekEnd =
      jsDay (endOfWeekTs (d * msPerDay)) := rfl
  refine ⟨?_, ?_, ?_, ?_, ?_, ?_, ?_⟩
  · simp [getCalendarWeek]
  · rw [hws, hw]
  · rw [hwe, heow2]
    unfold jsDay msPerDay
    omega
  · omega
  · omega
  · omega
  · intro i hi
    have hi7 : i < 7 := by
      simpa [getCalendarWeek] using hi
    have hget : (getCalendarWeek uid (d * msPerDay) events rsvps).weekData.get ⟨i, hi⟩ =
        { date := jsDay (startOfWeekTs (d * msPerDay)) + i
          events := ((events.filter (fun e =>
              decide (startOfWeekTs (d * msPerDay) ≤ e.startDate) &&
                decide (e.startDate ≤ endOfWeekTs (d * msPerDay)) &&
                hasRsvp uid rsvps e)).mergeSort
              (fun a b => a.startDate ≤ b.startDate)).filter
            (fun e => jsDay e.startDate == jsDay (startOfWeekTs (d * msPerDay)) + i) } := by
      simp only [getCalendarWeek, List.get_eq_getElem, List.getElem_map, List.getElem_range]
    constructor
    · rw [hget, ← hw]
    · intro e
      rw [hget]
      simp only [List.mem_filter,
        (List.mergeSort_perm _ (fun a b : EventRow => a.startDate ≤ b.startDate)).mem_iff,
        Bool.and_eq_true, decide_eq_true_eq, beq_iff_eq, ← hw]
      constructor
      · rintro ⟨⟨he, ⟨h1, h2⟩, h3⟩, h4⟩
        exact ⟨he, h3, h4⟩
      · rintro ⟨he, h3, h4⟩
        refine ⟨⟨he, ⟨?_, ?_⟩, h3⟩, h4⟩
        · rw [hsow2]
          revert h4
          unfold jsDay msPerDay
          omega
        · rw [heow2]
          revert h4
          unfold jsDay msPerDay
          omega

/-- A Monday-morning event used by the week-view witness. -/
def mondayEvent : EventRow :=
  { eventID := "e4", eventName := "Monday briefing", tickerSymbol := none,
    gicsSector := none, eventType := "CONFERENCE",
    startDate := 4 * 86400000 + 3600000, endDate := none }

theorem getCalendarWeek_C3_amended_witness :
    (getCalendarWeek "u1" (4 * msPerDay) [mondayEvent]
        [{ userID := "u1", eventID := "e4", status := "ACCEPTED" }]).weekData.length = 7 ∧
    (getCalendarWeek "u1" (4 * msPerDay) [mondayEvent]
        [{ userID := "u1", eventID := "e4", status := "ACCEPTED" }]).weekStart = 4 ∧
    (getCalendarWeek "u1" (4 * msPerDay) [mondayEvent]
        [{ userID := "u1", eventID := "e4", status := "ACCEPTED" }]).weekEnd = 4 + 6 ∧
    ((4 : Int) + 4) % 7 = 1 ∧
    (4 : Int) ≤ 4 ∧ (4 : Int) ≤ 4 + 6 ∧
    (∀ i : Nat,
      ∀ hi : i < (getCalendarWeek "u1" (4 * msPerDay) [mondayEvent]
        [{ userID := "u1", eventID := "e4", status := "ACCEPTED" }]).weekData.length,
      ((getCalendarWeek "u1" (4 * msPerDay) [mondayEvent]
          [{ userID := "u1", eventID := "e4",
             status := "ACCEPTED" }]).weekData.get ⟨i, hi⟩).date = 4 + i ∧
      (∀ e, e ∈ ((getCalendarWeek "u1" (4 * msPerDay) [mondayEvent]
          [{ userID := "u1", eventID := "e4",
             status := "ACCEPTED" }]).weekData.get ⟨i, hi⟩).events ↔
        (e ∈ [mondayEvent] ∧
          hasRsvp "u1" [{ userID := "u1", eventID := "e4", status := "ACCEPTED" }] e =
            true ∧
          jsDay e.startDate = 4 + i))) :=
  getCalendarWeek_C3_amended "u1" 4 4 [mondayEvent]
    [{ userID := "u1", eventID := "e4", status := "ACCEPTED" }]
    (by decide) (by decide)
